import Mathlib

/-!
Shallow embedding of the mcp-wrapper repository (TypeScript) into Lean 4,
covering the parts needed by the frozen claims: the provider adapters
(OpenAIProvider, ClaudeProvider in its three source versions), the provider
factory, and the MCP server (handleRequest, processGenerateWithTools,
readResource).

Conventions of the embedding:
- JSON values are the inductive `Json` below; a JavaScript object is a list
  of string-keyed fields.
- `JSON.parse` is an external V8 builtin; it is passed to the embedded
  functions as an explicit parameter `parse : String → Option Json`
  (`none` = the parse throws a SyntaxError).
- Async functions that can reject are embedded as `Except String α`, the
  `String` being the error message.
- Network calls to the backends are oracles: the embedded functions take the
  backend's response (already decoded by the vendor SDK) as an argument,
  and the request-building halves that only feed the HTTP client are not
  modelled (no claim is about them).
- A JS optional field is an `Option`; reading an absent field yields `none`
  (JS `undefined`).
-/

inductive Json where
  | null : Json
  | bool (b : Bool) : Json
  | num (n : Int) : Json
  | str (s : String) : Json
  | arr (xs : List Json) : Json
  | obj (fields : List (String × Json)) : Json

/-- src/providers/ModelProvider.ts: `ModelToolCall`. -/
structure ModelToolCall where
  name : String
  arguments : Json

/-- src/providers/ModelProvider.ts: `ToolResult` as pushed by the server loop
(`{ name, result }`; `tool_use_id` is never set there). -/
structure ToolResult where
  name : String
  result : Json

/-- Return type of `generateWithTools`:
`{ response?: string; toolCalls?: ModelToolCall[] }`. -/
structure Outcome where
  response : Option String := none
  toolCalls : Option (List ModelToolCall) := none

/-- Declared return type of `continueWithToolResult`
(ModelProvider.ts lines 52-57): `{ response: string }` — it has no
`toolCalls` field. All three provider implementations return exactly this
shape. -/
structure ContinueResult where
  response : String

/-- Reading the (absent) `toolCalls` field off a `ContinueResult`, as the
`@ts-ignore`d line `toolCalls = continueResult.toolCalls` in
MCPServer.ts does: in JavaScript this yields `undefined`. -/
def ContinueResult.toolCallsField (_ : ContinueResult) : Option (List ModelToolCall) :=
  none

/-- JavaScript `String.prototype.trim`: strip leading and trailing
whitespace.  (Embedded explicitly — Lean's `String.trim` is not
kernel-reducible.) -/
def jsTrim (s : String) : String :=
  String.mk (((s.data.dropWhile Char.isWhitespace).reverse.dropWhile
    Char.isWhitespace).reverse)

/- ===== OpenAIProvider ===== -/

/-- A raw tool call in an OpenAI chat completion choice:
`tc.function = { name, arguments?: string }`. -/
structure OAIToolCallRaw where
  name : String
  arguments : Option String

/-- The parts of `response.choices[0].message` that `generateWithTools`
inspects. -/
structure OAIMessage where
  content : Option String := none
  tool_calls : Option (List OAIToolCallRaw) := none
  function_call : Option OAIToolCallRaw := none

/-- src/providers/OpenAIProvider.ts, `generateWithTools`, response-processing
half (lines 81-102).  The `tool_calls` branch runs
`tc.function.arguments ? JSON.parse(tc.function.arguments) : {}` with no
try/catch, so a parse failure rejects the promise; the legacy
`function_call` branch (line 97) is likewise a bare `JSON.parse`. -/
def openAIGenerateWithTools (parse : String → Option Json) (choice : OAIMessage) :
    Except String Outcome :=
  match choice.tool_calls with
  | some tcs =>
    if tcs.length > 0 then
      (tcs.mapM (fun (tc : OAIToolCallRaw) =>
        (match tc.arguments with
        | none => Except.ok { name := tc.name, arguments := Json.obj [] }
        | some s =>
          match parse s with
          | some j => Except.ok { name := tc.name, arguments := j }
          | none =>
            Except.error "SyntaxError: Unexpected token" : Except String ModelToolCall))).map
        (fun calls => { toolCalls := some calls })
    else openAIGenerateWithToolsFcBranch parse choice
  | none => openAIGenerateWithToolsFcBranch parse choice
where
  /-- The fallback `function_call` branch and the final text branch. -/
  openAIGenerateWithToolsFcBranch (parse : String → Option Json) (choice : OAIMessage) :
      Except String Outcome :=
    match choice.function_call with
    | some fc =>
      match fc.arguments with
      | none => Except.ok { toolCalls := some [{ name := fc.name, arguments := Json.obj [] }] }
      | some s =>
        match parse s with
        | some j => Except.ok { toolCalls := some [{ name := fc.name, arguments := j }] }
        | none => Except.error "SyntaxError: Unexpected token"
    | none =>
      Except.ok { response := some (jsTrim (choice.content.getD "")) }

/-- src/unnamed/part_001 (alternate OpenAIProvider.ts), `generateWithTools`,
response-processing half (lines 83-115).  The `tool_calls` branch is the
same bare `JSON.parse`; the legacy `function_call` branch (lines 99-112)
wraps the parse in try/catch and defaults to `{}` on failure. -/
def openAIGenerateWithToolsAlt (parse : String → Option Json) (choice : OAIMessage) :
    Except String Outcome :=
  match choice.tool_calls with
  | some tcs =>
    if tcs.length > 0 then
      (tcs.mapM (fun (tc : OAIToolCallRaw) =>
        (match tc.arguments with
        | none => Except.ok { name := tc.name, arguments := Json.obj [] }
        | some s =>
          match parse s with
          | some j => Except.ok { name := tc.name, arguments := j }
          | none =>
            Except.error "SyntaxError: Unexpected token" : Except String ModelToolCall))).map
        (fun calls => { toolCalls := some calls })
    else openAIAltFcBranch parse choice
  | none => openAIAltFcBranch parse choice
where
  /-- Alternate version's `function_call` branch: try/catch around the
  parse, defaulting to the empty object. -/
  openAIAltFcBranch (parse : String → Option Json) (choice : OAIMessage) :
      Except String Outcome :=
    match choice.function_call with
    | some fc =>
      let args : Json :=
        match fc.arguments with
        | none => Json.obj []
        | some s =>
          match parse s with
          | some j => j
          | none => Json.obj []
      Except.ok { toolCalls := some [{ name := fc.name, arguments := args }] }
    | none =>
      Except.ok { response := some (jsTrim (choice.content.getD "")) }

/- ===== ClaudeProvider (three source versions in ClaudeProvider.ts) ===== -/

/-- An Anthropic `tool_use` content block as the providers read it:
`{ id, name, input }`.  A block "lacking a usable name" is embedded as
`name = ""` (in JavaScript both `undefined` and `""` are falsy, the test
the filtering versions use).  An absent `input` is `none`. -/
structure ClaudeToolUse where
  id : String := ""
  name : String
  input : Option Json := none

/-- A content block of a Claude messages response: text or tool_use. -/
inductive ClaudeBlock where
  | text (t : String) : ClaudeBlock
  | toolUse (tu : ClaudeToolUse) : ClaudeBlock

def claudeToolUses (content : List ClaudeBlock) : List ClaudeToolUse :=
  content.filterMap fun b =>
    match b with
    | .toolUse tu => some tu
    | _ => none

def claudeTexts (content : List ClaudeBlock) : List String :=
  content.filterMap fun b =>
    match b with
    | .text t => some t
    | _ => none

/-- Text path of versions 1 and 3: fragments joined with `''`, trimmed. -/
def claudeTextV1 (content : List ClaudeBlock) : String :=
  jsTrim (String.intercalate "" (claudeTexts content))

/-- Text path of version 2: fragments joined with `' '`, trimmed. -/
def claudeTextV2 (content : List ClaudeBlock) : String :=
  jsTrim (String.intercalate " " (claudeTexts content))

/-- ClaudeProvider.ts, first version, `generateWithTools` response-processing
half (lines 90-115): maps each `tool_use` block, skipping any whose `name`
is falsy; if no calls survive (or there were none) it falls through to the
text path.  (An absent `input` is embedded as `Json.null` where the source
passes the raw `tu.input` through.) -/
def claudeGenerateWithTools (content : List ClaudeBlock) : Outcome :=
  let toolUses := claudeToolUses content
  if toolUses.length > 0 then
    let calls : List ModelToolCall := toolUses.filterMap fun tu =>
      if tu.name = "" then none
      else some { name := tu.name, arguments := tu.input.getD Json.null }
    if calls.length > 0 then { toolCalls := some calls }
    else { response := some (claudeTextV1 content) }
  else { response := some (claudeTextV1 content) }

/-- Version 2's tool-call record carries the block id as well
(`{ id, name, arguments }`). -/
structure V2ToolCall where
  id : String
  name : String
  arguments : Json

/-- Return type of version 2's `generateWithTools`. -/
structure OutcomeV2 where
  response : Option String := none
  toolCalls : Option (List V2ToolCall) := none

/-- ClaudeProvider.ts, second version, `generateWithTools` response-processing
half (lines 262-294): maps the `tool_use` blocks to `{id, name, arguments}`
and keeps only calls with a truthy name; with no surviving calls it returns
`textContent || 'I will call a tool now.'`. -/
def claudeGenerateWithToolsV2 (content : List ClaudeBlock) : OutcomeV2 :=
  let toolUseBlocks := claudeToolUses content
  let textContent := claudeTextV2 content
  let fallback : String :=
    if textContent = "" then "I will call a tool now." else textContent
  if toolUseBlocks.length > 0 then
    let toolCalls : List V2ToolCall :=
      (toolUseBlocks.map fun tu =>
        { id := tu.id, name := tu.name, arguments := tu.input.getD Json.null }).filter
        fun c => c.name ≠ ""
    if toolCalls.length > 0 then { toolCalls := some toolCalls }
    else { response := some fallback }
  else { response := some fallback }

/-- ClaudeProvider.ts, third version, `generateWithTools` response-processing
half (lines 436-450): maps every `tool_use` block to
`{ name: tu.name, arguments: tu.input ?? {} }` with no name filtering. -/
def claudeGenerateWithToolsV3 (content : List ClaudeBlock) : Outcome :=
  let toolUses := claudeToolUses content
  if toolUses.length > 0 then
    { toolCalls := some (toolUses.map fun tu =>
        { name := tu.name, arguments := tu.input.getD (Json.obj []) }) }
  else { response := some (claudeTextV1 content) }

/- ===== Tool descriptor translation (claim C8) ===== -/

/-- src/providers/ModelProvider.ts: `JSONSchema`
(`{type, properties, required?, additionalProperties?}`). -/
structure JSONSchema where
  type : String
  properties : List (String × Json)
  required : Option (List String) := none
  additionalProperties : Option Bool := none

/-- src/providers/ModelProvider.ts: `ToolFunction`. -/
structure ToolFunction where
  name : String
  description : String
  input_schema : JSONSchema

/-- The Anthropic-native tool shape built by `convertToAnthropicTools`. -/
structure AnthropicTool where
  name : String
  description : String
  input_schema : JSONSchema

/-- ClaudeProvider.ts, second version, `convertToAnthropicTools`
(lines 206-216): rebuilds the schema as
`{ type: 'object', properties, required: required || [] }`.  A JS array is
always truthy, so `|| []` replaces only an absent `required`.  The rebuilt
object has no `additionalProperties` key. -/
def convertToAnthropicTools (tools : List ToolFunction) : List AnthropicTool :=
  tools.map fun tool =>
    { name := tool.name
      description := tool.description
      input_schema :=
        { type := "object"
          properties := tool.input_schema.properties
          required := some (tool.input_schema.required.getD [])
          additionalProperties := none } }

/-- The OpenAI-native function shape built by `toOpenAIFunction` (the
constant `type: 'function'` wrapper and `strict: null` field are omitted:
no claim mentions them). -/
structure OpenAIFunctionDef where
  name : String
  description : String
  parameters : JSONSchema

/-- src/providers/OpenAIProvider.ts, `toOpenAIFunction` (lines 6-16):
passes `name`, `description` and the whole `input_schema` through as
`parameters`. -/
def toOpenAIFunction (t : ToolFunction) : OpenAIFunctionDef :=
  { name := t.name, description := t.description, parameters := t.input_schema }

/- ===== ProviderFactory (claim C9) ===== -/

/-- The constructed adapter, tagged by backend and carrying the credential
handed to the constructor. -/
inductive ProviderInstance where
  | openaiProvider (apiKey : String) : ProviderInstance
  | claudeProvider (apiKey : String) : ProviderInstance

/-- src/providers/ProviderFactory.ts, `ProviderFactory.getProvider`
(lines 13-29): switch on the provider name; `'openai'` and `'anthropic'`
construct the respective adapter, anything else throws the
unsupported-provider error naming the supported providers. -/
def getProvider (providerName : String) (apiKey : String) :
    Except String ProviderInstance :=
  match providerName with
  | "openai" => Except.ok (ProviderInstance.openaiProvider apiKey)
  | "anthropic" => Except.ok (ProviderInstance.claudeProvider apiKey)
  | _ =>
    Except.error ("Unsupported provider: \"" ++ providerName ++
      "\". Supported providers are: \x27openai\x27 or \x27anthropic\x27.")

/- ===== MCPServer (claims C3-C7, C10) ===== -/

/-- A JSON-RPC request id as validated by the zod schemas:
`z.union([z.string(), z.number()])`. -/
inductive ReqId where
  | num (n : Int) : ReqId
  | str (s : String) : ReqId
deriving DecidableEq

/-- JavaScript truthiness of a request id: `0` and `""` are falsy. -/
def ReqId.truthy : ReqId → Bool
  | .num n => n != 0
  | .str s => s != ""

/-- `{ code, message }` of a JSON-RPC error object. -/
structure RpcError where
  code : Int
  message : String

/-- The `contents` entry built by `readResource` for a text resource. -/
structure ResourceContent where
  uri : String
  text : String
  mimeType : String

/-- The `result` payloads the handlers return. -/
inductive RpcResult where
  | content (c : Option String) : RpcResult
  | continueRes (cr : ContinueResult) : RpcResult
  | contents (cs : List ResourceContent) : RpcResult
  | toolResultR (r : Json) : RpcResult

/-- The JSON-RPC response envelope: `{jsonrpc: "2.0", id, result?, error?}`.
`id = none` embeds JS `null`. -/
structure Envelope where
  id : Option ReqId
  result : Option RpcResult := none
  error : Option RpcError := none

/-- A success envelope, `id: request.id` verbatim. -/
def okEnv (rid : ReqId) (r : RpcResult) : Envelope :=
  { id := some rid, result := some r }

/-- An error envelope built with `id: request.id || null` (the pattern every
map-registered handler and the unknown-method branch use): a falsy id is
replaced by JS `null`. -/
def errEnvFalsy (rid : ReqId) (code : Int) (msg : String) : Envelope :=
  { id := if rid.truthy then some rid else none
    error := some { code := code, message := msg } }

/-- An error envelope built with `id: request.id` verbatim (the pattern
`processGenerateWithTools` uses). -/
def errEnvExact (rid : ReqId) (code : Int) (msg : String) : Envelope :=
  { id := some rid, error := some { code := code, message := msg } }

/-- The tool-handler map `this.toolHandlers`: a handler takes the call's
arguments and either returns a result or throws. -/
def ToolHandlers : Type := String → Option (Json → Except String Json)

/-- The sequential handler-execution segment of the `while` body in
`processGenerateWithTools` (MCPServer.ts lines 325-343): for each reported
call in order, look up the handler (`throw` if missing, naming the tool),
await it, and push `{ name, result }`. -/
def execRound (handlers : ToolHandlers) : List ModelToolCall → Except String (List ToolResult)
  | [] => Except.ok []
  | c :: rest =>
    match handlers c.name with
    | none => Except.error ("No tool handler found for tool: " ++ c.name)
    | some h =>
      match h c.arguments with
      | Except.error e => Except.error e
      | Except.ok r =>
        (execRound handlers rest).map (fun rs => { name := c.name, result := r } :: rs)

/-- The `while (toolCalls && toolCalls.length > 0)` loop of
`processGenerateWithTools` (MCPServer.ts lines 324-358), with explicit
fuel (the source loop is unbounded).  `cont` is the oracle for
`this.modelProvider.continueWithToolResult`; its result has the
source-declared type `{ response: string }`, and the subsequent
`continueResult.toolCalls` read is `ContinueResult.toolCallsField`.
Returns the final response (or the thrown error) together with the list of
`toolResults` arguments of the continuation calls that were issued, in
order. -/
def gwtLoop (handlers : ToolHandlers) (cont : Except String ContinueResult) :
    Nat → Option String → Option (List ModelToolCall) → List (List ToolResult) →
    (Except String (Option String)) × List (List ToolResult)
  | 0, finalResponse, toolCalls, acc =>
    match toolCalls with
    | some (_ :: _) => (Except.error "out of fuel", acc)
    | _ => (Except.ok finalResponse, acc)
  | fuel + 1, finalResponse, toolCalls, acc =>
    match toolCalls with
    | some (c :: cs) =>
      (match execRound handlers (c :: cs) with
      | Except.error e => (Except.error e, acc)
      | Except.ok results =>
        match cont with
        | Except.error e => (Except.error e, acc ++ [results])
        | Except.ok cr =>
          gwtLoop handlers cont fuel (some cr.response) cr.toolCallsField (acc ++ [results]))
    | _ => (Except.ok finalResponse, acc)

/-- The run trace of one `processGenerateWithTools` call: the envelope it
returns, and the `toolResults` lists of the continuation calls it issued. -/
structure GwTrace where
  envelope : Envelope
  contCalls : List (List ToolResult)

/-- MCPServer.ts, `processGenerateWithTools` (lines 312-380): run the first
`generateWithTools` (oracle `first`), iterate the loop, and wrap the result
as `{content: finalResponse}` with `id: request.id`, or any thrown error as
a `-32603` envelope with `id: request.id`. -/
def processGenerateWithTools (handlers : ToolHandlers) (first : Except String Outcome)
    (cont : Except String ContinueResult) (rid : ReqId) (fuel : Nat) : GwTrace :=
  match first with
  | Except.error e => { envelope := errEnvExact rid (-32603) e, contCalls := [] }
  | Except.ok outcome =>
    match gwtLoop handlers cont fuel outcome.response outcome.toolCalls [] with
    | (Except.error e, acc) => { envelope := errEnvExact rid (-32603) e, contCalls := acc }
    | (Except.ok finalResponse, acc) =>
      { envelope := okEnv rid (RpcResult.content finalResponse), contCalls := acc }

/-- The scheme of a URI, modelling `new URL(uri).protocol`: the characters
before the first `:`; `none` when there is no `:` (`new URL` throws). -/
def uriScheme (uri : String) : Option String :=
  if uri.data.contains ':' then
    some (String.mk (uri.data.takeWhile (fun ch => ch ≠ ':')))
  else none

/-- `path.resolve(new URL(uri).pathname)` for an absolute `file://` URI:
drop the 7-character `file://` prefix. -/
def filePathname (uri : String) : String := String.mk (uri.data.drop 7)

/-- MCPServer.ts, `readResource` (lines 417-454), over a filesystem oracle
`fs : path → Option contents`: reject non-`file:` schemes, read the file,
and return `{uri, text, mimeType: 'text/plain'}` (`isText` is the constant
`true` in the source).  Every failure is rethrown as
`Failed to read resource: ...`. -/
def readResource (fs : String → Option String) (uri : String) :
    Except String ResourceContent :=
  match uriScheme uri with
  | none => Except.error "Failed to read resource: Invalid URL"
  | some s =>
    if s ≠ "file" then
      Except.error
        "Failed to read resource: Unsupported URI protocol. Only file:// is supported."
    else
      match fs (filePathname uri) with
      | none => Except.error "Failed to read resource: ENOENT"
      | some txt =>
        Except.ok { uri := uri, text := txt, mimeType := "text/plain" }

/-- The backend oracle for one request: the results of the provider calls
the handlers may make (`generateResponse`, `generateWithTools`,
`continueWithToolResult`).  The request parameters only feed these calls,
so they do not appear separately. -/
structure ProviderOracle where
  genResult : Except String String
  gwtResult : Except String Outcome
  contResult : Except String ContinueResult

/-- A request as `handleRequest` reads it: the method string, the id, and
the parameter fields the handlers access (each optional, as on a JS
object; `messages`/`tools`/`options` only feed the provider oracle and are
not modelled). -/
structure RpcRequest where
  method : String
  id : ReqId
  uri : Option String := none
  toolName : Option String := none
  toolArgs : Option Json := none

/-- MCPServer.ts, `handleRequest` (lines 383-415) with the map-registered
handlers from `setupHandlers` inlined (the configured server registers
exactly `generate`, `generate_with_tools`, `continue_with_tool_result`,
`resources/read` and `call_tool`): `generate_with_tools` is intercepted
first and routed to `processGenerateWithTools`; each other known method
runs its handler, whose internal try/catch turns a thrown error into a
`-32000` envelope with `id: request.id || null`; an unknown method yields
the `-32601` envelope.  An absent parameter is read as JS `undefined`,
which stringifies to `"undefined"` where the source interpolates or
indexes with it. -/
def handleRequest (oracle : ProviderOracle) (handlers : ToolHandlers)
    (fs : String → Option String) (fuel : Nat) (req : RpcRequest) : Envelope :=
  if req.method = "generate_with_tools" then
    (processGenerateWithTools handlers oracle.gwtResult oracle.contResult req.id fuel).envelope
  else if req.method = "generate" then
    match oracle.genResult with
    | Except.ok c => okEnv req.id (RpcResult.content (some c))
    | Except.error e => errEnvFalsy req.id (-32000) e
  else if req.method = "continue_with_tool_result" then
    match oracle.contResult with
    | Except.ok cr => okEnv req.id (RpcResult.continueRes cr)
    | Except.error e => errEnvFalsy req.id (-32000) e
  else if req.method = "resources/read" then
    match readResource fs (req.uri.getD "undefined") with
    | Except.ok c => okEnv req.id (RpcResult.contents [c])
    | Except.error e => errEnvFalsy req.id (-32000) e
  else if req.method = "call_tool" then
    let nm := req.toolName.getD "undefined"
    match handlers nm with
    | none =>
      errEnvFalsy req.id (-32000) ("Tool handler for \x27" ++ nm ++ "\x27 not found.")
    | some h =>
      match h (req.toolArgs.getD Json.null) with
      | Except.ok r => okEnv req.id (RpcResult.toolResultR r)
      | Except.error e => errEnvFalsy req.id (-32000) e
  else
    errEnvFalsy req.id (-32601) ("Method " ++ req.method ++ " not found")

/-- The method table registered by `setupHandlers` plus the intercepted
`generate_with_tools` route. -/
def methodTable : List String :=
  ["generate", "generate_with_tools", "continue_with_tool_result",
   "resources/read", "call_tool"]

/- ===== Theorems ===== -/

/-- Every call surviving version 1's filter has a non-empty name. -/
lemma v1_filter_names (tus : List ClaudeToolUse) :
    ∀ c ∈ tus.filterMap (fun tu =>
      if tu.name = "" then none
      else some ({ name := tu.name, arguments := tu.input.getD Json.null } : ModelToolCall)),
      c.name ≠ "" := by
  intro c hc
  simp only [List.mem_filterMap] at hc
  obtain ⟨tu, _, htu⟩ := hc
  split at htu
  · exact absurd htu (by simp)
  · next h =>
    cases htu
    exact h

/-- Every call surviving version 2's filter has a non-empty name. -/
lemma v2_filter_names (tus : List ClaudeToolUse) :
    ∀ c ∈ (tus.map (fun tu =>
        ({ id := tu.id, name := tu.name, arguments := tu.input.getD Json.null } : V2ToolCall))).filter
        (fun c => c.name ≠ ""),
      c.name ≠ "" := by
  intro c hc
  have := List.of_mem_filter hc
  simpa using this

/-- C1: against the claim, a provider-returned tool invocation in the
`tool_calls` array whose `arguments` string is not valid JSON makes
`generateWithTools` reject (both OpenAIProvider versions run a bare
`JSON.parse` there); only the legacy `function_call` branch of the
alternate version degrades to the empty argument mapping. -/
theorem c1_malformed_arguments_raise (parse : String → Option Json)
    (h : parse "not json" = none) :
    openAIGenerateWithTools parse
      { tool_calls := some [{ name := "get_weather", arguments := some "not json" }] } =
      Except.error "SyntaxError: Unexpected token" ∧
    openAIGenerateWithToolsAlt parse
      { tool_calls := some [{ name := "get_weather", arguments := some "not json" }] } =
      Except.error "SyntaxError: Unexpected token" ∧
    openAIGenerateWithToolsAlt parse
      { function_call := some { name := "get_weather", arguments := some "not json" } } =
      Except.ok { toolCalls := some [{ name := "get_weather", arguments := Json.obj [] }] } := by
  refine ⟨?_, ?_, ?_⟩
  · unfold openAIGenerateWithTools
    simp [h, List.mapM, List.mapM.loop, Except.map]
  · unfold openAIGenerateWithToolsAlt
    simp [h, List.mapM, List.mapM.loop, Except.map]
  · unfold openAIGenerateWithToolsAlt openAIGenerateWithToolsAlt.openAIAltFcBranch
    simp [h]

/-- Witness for `c1_malformed_arguments_raise` at the concrete parse
function that fails on every input. -/
theorem c1_malformed_arguments_raise_witness :
    (fun _ => (none : Option Json)) "not json" = none ∧
    openAIGenerateWithTools (fun _ => none)
      { tool_calls := some [{ name := "get_weather", arguments := some "not json" }] } =
      Except.error "SyntaxError: Unexpected token" :=
  ⟨rfl, (c1_malformed_arguments_raise (fun _ => none) rfl).1⟩

/-- C2 counterexample: the third `generateWithTools` version returns a tool
invocation lacking a usable name unfiltered — on a response whose only
content block is a `tool_use` block with an empty name, the returned
`toolCalls` list contains that nameless call. -/
theorem c2_counterexample :
    claudeGenerateWithToolsV3 [ClaudeBlock.toolUse { name := "" }] =
      { response := none, toolCalls := some [{ name := "", arguments := Json.obj [] }] } :=
  rfl

/-- C2 (amended): the first and second `generateWithTools` versions never
return a call with an unusable name, and when no calls survive they return
a textual outcome — version 1 the joined trimmed text (possibly empty),
version 2 substituting the placeholder for empty text; the third version
does not filter. -/
theorem c2_no_phantom_calls_amended (content : List ClaudeBlock) :
    (∀ cs, (claudeGenerateWithTools content).toolCalls = some cs → ∀ c ∈ cs, c.name ≠ "") ∧
    ((claudeGenerateWithTools content).toolCalls = none →
      (claudeGenerateWithTools content).response = some (claudeTextV1 content)) ∧
    (∀ cs, (claudeGenerateWithToolsV2 content).toolCalls = some cs → ∀ c ∈ cs, c.name ≠ "") ∧
    ((claudeGenerateWithToolsV2 content).toolCalls = none →
      (claudeGenerateWithToolsV2 content).response =
        some (if claudeTextV2 content = "" then "I will call a tool now."
              else claudeTextV2 content)) := by
  refine ⟨?_, ?_, ?_, ?_⟩
  · simp only [claudeGenerateWithTools]
    intro cs hcs c hc
    split at hcs
    · split at hcs
      · simp only [Outcome.mk.injEq] at hcs
        cases hcs
        exact v1_filter_names _ c hc
      · simp at hcs
    · simp at hcs
  · simp only [claudeGenerateWithTools]
    intro hnone
    split
    · split
      · simp_all
      · rfl
    · rfl
  · simp only [claudeGenerateWithToolsV2]
    intro cs hcs c hc
    split at hcs
    · split at hcs
      · simp only [OutcomeV2.mk.injEq] at hcs
        cases hcs
        exact v2_filter_names _ c hc
      · simp at hcs
    · simp at hcs
  · simp only [claudeGenerateWithToolsV2]
    intro hnone
    split
    · split
      · simp_all
      · rfl
    · rfl

/-- Witness for `c2_no_phantom_calls_amended`: a response with one nameless
`tool_use` block and no text makes version 2 fall back to the placeholder
string. -/
theorem c2_no_phantom_calls_amended_witness :
    (claudeGenerateWithToolsV2 [ClaudeBlock.toolUse { name := "" }]).response =
      some "I will call a tool now." := by
  have h := (c2_no_phantom_calls_amended [ClaudeBlock.toolUse { name := "" }]).2.2.2 rfl
  rw [h]
  decide

/-- `gwtLoop` does not iterate when there are no (or zero) tool calls. -/
lemma gwtLoop_no_calls (handlers : ToolHandlers) (cont : Except String ContinueResult)
    (fuel : Nat) (fr : Option String) (tc : Option (List ModelToolCall))
    (acc : List (List ToolResult))
    (h : ∀ l, tc = some l → l = []) :
    gwtLoop handlers cont fuel fr tc acc = (Except.ok fr, acc) := by
  cases fuel with
  | zero =>
    cases tc with
    | none => rfl
    | some l => cases l with
      | nil => rfl
      | cons a as => exact absurd (h _ rfl) (by simp)
  | succ m =>
    cases tc with
    | none => rfl
    | some l => cases l with
      | nil => rfl
      | cons a as => exact absurd (h _ rfl) (by simp)

/-- One unfolding of `gwtLoop` on a non-empty round: after the continuation
the loop reads the absent `toolCalls` field and exits, independently of the
remaining fuel. -/
lemma gwtLoop_succ_eq (handlers : ToolHandlers) (cont : Except String ContinueResult)
    (m : Nat) (fr : Option String) (c : ModelToolCall) (cs : List ModelToolCall)
    (acc : List (List ToolResult)) :
    gwtLoop handlers cont (m + 1) fr (some (c :: cs)) acc =
      (match execRound handlers (c :: cs) with
      | Except.error e => (Except.error e, acc)
      | Except.ok results =>
        match cont with
        | Except.error e => (Except.error e, acc ++ [results])
        | Except.ok cr => (Except.ok (some cr.response), acc ++ [results])) := by
  rw [gwtLoop]
  cases execRound handlers (c :: cs) with
  | error e => rfl
  | ok results =>
    cases cont with
    | error e => rfl
    | ok cr =>
      simp only []
      exact gwtLoop_no_calls handlers (Except.ok cr) m (some cr.response)
        (ContinueResult.toolCallsField cr) (acc ++ [results]) (by intro l hl; cases hl)

/-- Executing a round whose first missing handler is at call `c` throws the
error naming `c`. -/
lemma execRound_missing (handlers : ToolHandlers) (pre post : List ModelToolCall)
    (c : ModelToolCall)
    (hpre : ∀ p ∈ pre, ∃ h r, handlers p.name = some h ∧ h p.arguments = Except.ok r)
    (hmiss : handlers c.name = none) :
    execRound handlers (pre ++ c :: post) =
      Except.error ("No tool handler found for tool: " ++ c.name) := by
  induction pre with
  | nil => simp [execRound, hmiss]
  | cons p ps ih =>
    obtain ⟨h, r, hh, hr⟩ := hpre p (by simp)
    have := ih (fun q hq => hpre q (by simp [hq]))
    simp [execRound, hh, hr, this, Except.map]

/-- C3: when the provider's first outcome reports a tool call whose name
has no handler in the supplied map (all calls before it having succeeding
handlers), the orchestration run returns the `-32603` error envelope whose
message names the missing tool, and issues zero continuation calls. -/
theorem c3_missing_handler_fatal (handlers : ToolHandlers) (first : Outcome)
    (cont : Except String ContinueResult) (rid : ReqId) (fuel : Nat)
    (pre post : List ModelToolCall) (c : ModelToolCall)
    (hcalls : first.toolCalls = some (pre ++ c :: post))
    (hpre : ∀ p ∈ pre, ∃ h r, handlers p.name = some h ∧ h p.arguments = Except.ok r)
    (hmiss : handlers c.name = none)
    (hfuel : 1 ≤ fuel) :
    (processGenerateWithTools handlers (Except.ok first) cont rid fuel).envelope =
      errEnvExact rid (-32603) ("No tool handler found for tool: " ++ c.name) ∧
    (processGenerateWithTools handlers (Except.ok first) cont rid fuel).contCalls = [] := by
  obtain ⟨m, rfl⟩ : ∃ m, fuel = m + 1 := ⟨fuel - 1, by omega⟩
  have hexec := execRound_missing handlers pre post c hpre hmiss
  cases hl : pre ++ c :: post with
  | nil => exact absurd hl (by simp)
  | cons a as =>
    rw [hl] at hexec
    simp [processGenerateWithTools, hcalls, hl, gwtLoop_succ_eq, hexec]

/-- Witness for `c3_missing_handler_fatal`: an empty handler map and a
single reported call named `get_weather`. -/
theorem c3_missing_handler_fatal_witness :
    (processGenerateWithTools (fun _ => none)
      (Except.ok { toolCalls := some [{ name := "get_weather", arguments := Json.null }] })
      (Except.ok { response := "done" }) (ReqId.num 1) 1).envelope =
      errEnvExact (ReqId.num 1) (-32603) "No tool handler found for tool: get_weather" ∧
    (processGenerateWithTools (fun _ => none)
      (Except.ok { toolCalls := some [{ name := "get_weather", arguments := Json.null }] })
      (Except.ok { response := "done" }) (ReqId.num 1) 1).contCalls = [] :=
  c3_missing_handler_fatal (fun _ => none) _ _ (ReqId.num 1) 1
    [] [] { name := "get_weather", arguments := Json.null } rfl (by simp) rfl (by omega)

/-- Evaluation of `processGenerateWithTools` with at least one unit of
fuel; the right-hand side is fuel-independent. -/
lemma processGWT_eval (handlers : ToolHandlers) (first : Except String Outcome)
    (cont : Except String ContinueResult) (rid : ReqId) (m : Nat) :
    processGenerateWithTools handlers first cont rid (m + 1) =
      match first with
      | Except.error e => { envelope := errEnvExact rid (-32603) e, contCalls := [] }
      | Except.ok outcome =>
        match outcome.toolCalls with
        | some (c :: cs) =>
          (match execRound handlers (c :: cs) with
          | Except.error e => { envelope := errEnvExact rid (-32603) e, contCalls := [] }
          | Except.ok results =>
            match cont with
            | Except.error e =>
              { envelope := errEnvExact rid (-32603) e, contCalls := [results] }
            | Except.ok cr =>
              { envelope := okEnv rid (RpcResult.content (some cr.response)),
                contCalls := [results] })
        | _ => { envelope := okEnv rid (RpcResult.content outcome.response), contCalls := [] } := by
  cases first with
  | error e => rfl
  | ok outcome =>
    cases htc : outcome.toolCalls with
    | none =>
      simp only [processGenerateWithTools, htc]
      rw [gwtLoop_no_calls _ _ _ _ _ _ (by intro l hl; cases hl)]
    | some l =>
      cases l with
      | nil =>
        simp only [processGenerateWithTools, htc]
        rw [gwtLoop_no_calls _ _ _ _ _ _ (by intro l hl; cases hl; rfl)]
      | cons c cs =>
        simp only [processGenerateWithTools, htc, gwtLoop_succ_eq]
        cases execRound handlers (c :: cs) with
        | error e => rfl
        | ok results =>
          cases cont with
          | error e => rfl
          | ok cr => rfl

/-- C4: a fully server-side `generate_with_tools` run issues at most one
continuation call — `continueWithToolResult`'s declared result carries no
`toolCalls` field, so the `while` loop exits after its first iteration:
the run is already complete with one unit of fuel. -/
theorem c4_at_most_one_continuation (handlers : ToolHandlers)
    (first : Except String Outcome) (cont : Except String ContinueResult)
    (rid : ReqId) (fuel : Nat) :
    (processGenerateWithTools handlers first cont rid fuel).contCalls.length ≤ 1 ∧
    (1 ≤ fuel →
      processGenerateWithTools handlers first cont rid fuel =
        processGenerateWithTools handlers first cont rid 1) := by
  cases fuel with
  | zero =>
    refine ⟨?_, by omega⟩
    cases first with
    | error e => simp [processGenerateWithTools]
    | ok outcome =>
      cases htc : outcome.toolCalls with
      | none => simp [processGenerateWithTools, htc, gwtLoop]
      | some l =>
        cases l with
        | nil => simp [processGenerateWithTools, htc, gwtLoop]
        | cons c cs => simp [processGenerateWithTools, htc, gwtLoop]
  | succ m =>
    have h1 := processGWT_eval handlers first cont rid m
    have h0 := processGWT_eval handlers first cont rid 0
    constructor
    · rw [h1]
      cases first with
      | error e => simp
      | ok outcome =>
        cases htc : outcome.toolCalls with
        | none => simp [htc]
        | some l =>
          cases l with
          | nil => simp [htc]
          | cons c cs =>
            simp only [htc]
            cases execRound handlers (c :: cs) with
            | error e => simp
            | ok results =>
              cases cont with
              | error e => simp
              | ok cr => simp
    · intro _
      rw [h1, h0]

/-- Witness for `c4_at_most_one_continuation`: a run with one handled tool
call, at fuel 2 and fuel 1. -/
theorem c4_at_most_one_continuation_witness :
    (processGenerateWithTools (fun _ => some (fun a => Except.ok a))
      (Except.ok { toolCalls := some [{ name := "w", arguments := Json.null }] })
      (Except.ok { response := "done" }) (ReqId.num 1) 2).contCalls.length ≤ 1 ∧
    processGenerateWithTools (fun _ => some (fun a => Except.ok a))
      (Except.ok { toolCalls := some [{ name := "w", arguments := Json.null }] })
      (Except.ok { response := "done" }) (ReqId.num 1) 2 =
    processGenerateWithTools (fun _ => some (fun a => Except.ok a))
      (Except.ok { toolCalls := some [{ name := "w", arguments := Json.null }] })
      (Except.ok { response := "done" }) (ReqId.num 1) 1 :=
  ⟨(c4_at_most_one_continuation _ _ _ _ _).1,
   (c4_at_most_one_continuation _ _ _ _ _).2 (by omega)⟩

/-- A successful round executes every handler and collects `{name, result}`
pairs positionally. -/
lemma execRound_ok_spec (handlers : ToolHandlers) :
    ∀ (calls : List ModelToolCall) (results : List ToolResult),
    execRound handlers calls = Except.ok results →
    results.length = calls.length ∧
    ∀ i (hc : i < calls.length) (hr : i < results.length),
      (results.get ⟨i, hr⟩).name = (calls.get ⟨i, hc⟩).name ∧
      ∃ hdl, handlers (calls.get ⟨i, hc⟩).name = some hdl ∧
        hdl (calls.get ⟨i, hc⟩).arguments = Except.ok (results.get ⟨i, hr⟩).result := by
  intro calls
  induction calls with
  | nil =>
    intro results h
    simp only [execRound] at h
    cases h
    exact ⟨rfl, by intro i hc _; exact absurd hc (by simp)⟩
  | cons c rest ih =>
    intro results h
    cases hh : handlers c.name with
    | none =>
      simp only [execRound, hh] at h
      exact absurd h (by simp)
    | some hdl =>
      cases hr : hdl c.arguments with
      | error e =>
        simp only [execRound, hh, hr] at h
        exact absurd h (by simp)
      | ok r =>
        cases he : execRound handlers rest with
        | error e =>
          simp only [execRound, hh, hr, he, Except.map] at h
          exact absurd h (by simp)
        | ok rs =>
          simp only [execRound, hh, hr, he, Except.map, Except.ok.injEq] at h
          subst h
          obtain ⟨ihlen, ihspec⟩ := ih rs he
          refine ⟨by simp [ihlen], ?_⟩
          intro i hc hrr
          cases i with
          | zero => exact ⟨rfl, hdl, hh, hr⟩
          | succ j =>
            exact ihspec j (by simpa using hc) (by simpa using hrr)

/-- C7: in a round where every reported call's handler exists and completes,
the single continuation call of that round receives the full result list,
whose order matches the `tool_calls` order: `results[i]` carries the name
of `calls[i]` and the value its handler returned on `calls[i].arguments`. -/
theorem c7_results_in_order_before_continuation (handlers : ToolHandlers)
    (first : Outcome) (cont : Except String ContinueResult) (rid : ReqId) (fuel : Nat)
    (calls : List ModelToolCall) (results : List ToolResult)
    (hcalls : first.toolCalls = some calls) (hne : calls ≠ [])
    (hexec : execRound handlers calls = Except.ok results)
    (hfuel : 1 ≤ fuel) :
    (processGenerateWithTools handlers (Except.ok first) cont rid fuel).contCalls =
      [results] ∧
    results.length = calls.length ∧
    ∀ i (hc : i < calls.length) (hr : i < results.length),
      (results.get ⟨i, hr⟩).name = (calls.get ⟨i, hc⟩).name ∧
      ∃ hdl, handlers (calls.get ⟨i, hc⟩).name = some hdl ∧
        hdl (calls.get ⟨i, hc⟩).arguments = Except.ok (results.get ⟨i, hr⟩).result := by
  obtain ⟨m, rfl⟩ : ∃ m, fuel = m + 1 := ⟨fuel - 1, by omega⟩
  obtain ⟨hl, hspec⟩ := execRound_ok_spec handlers calls results hexec
  refine ⟨?_, hl, hspec⟩
  cases calls with
  | nil => exact absurd rfl hne
  | cons c cs =>
    rw [processGWT_eval]
    simp only [hcalls, hexec]
    cases cont with
    | error e => rfl
    | ok cr => rfl

/-- Witness for `c7_results_in_order_before_continuation`: two echo-handled
calls produce a single continuation carrying both results in order. -/
theorem c7_results_in_order_before_continuation_witness :
    (processGenerateWithTools (fun _ => some (fun a => Except.ok a))
      (Except.ok { toolCalls := some [{ name := "a", arguments := Json.num 1 },
                                      { name := "b", arguments := Json.num 2 }] })
      (Except.ok { response := "done" }) (ReqId.num 1) 1).contCalls =
      [[{ name := "a", result := Json.num 1 }, { name := "b", result := Json.num 2 }]] :=
  (c7_results_in_order_before_continuation (fun _ => some (fun a => Except.ok a))
    { toolCalls := some [{ name := "a", arguments := Json.num 1 },
                         { name := "b", arguments := Json.num 2 }] }
    (Except.ok { response := "done" }) (ReqId.num 1) 1
    [{ name := "a", arguments := Json.num 1 }, { name := "b", arguments := Json.num 2 }]
    [{ name := "a", result := Json.num 1 }, { name := "b", result := Json.num 2 }]
    rfl (by simp) rfl (by omega)).1

/-- A `processGenerateWithTools` envelope is either a success envelope or a
`-32603` error envelope, always carrying the caller's id verbatim. -/
lemma processGWT_envelope_shape (handlers : ToolHandlers) (first : Except String Outcome)
    (cont : Except String ContinueResult) (rid : ReqId) (fuel : Nat) :
    (∃ r, (processGenerateWithTools handlers first cont rid fuel).envelope =
      okEnv rid (RpcResult.content r)) ∨
    (∃ m, (processGenerateWithTools handlers first cont rid fuel).envelope =
      errEnvExact rid (-32603) m) := by
  unfold processGenerateWithTools
  cases first with
  | error e => right; exact ⟨e, rfl⟩
  | ok outcome =>
    rcases h : gwtLoop handlers cont fuel outcome.response outcome.toolCalls [] with ⟨res, acc⟩
    cases res with
    | error e => right; exact ⟨e, by simp [h]⟩
    | ok fr => left; exact ⟨fr, by simp [h]⟩

/-- Success envelopes carry exactly a result and echo the id. -/
lemma ok_wf (rid : ReqId) (r : RpcResult) :
    ((okEnv rid r).result.isSome ↔ (okEnv rid r).error = none) ∧
    (okEnv rid r).id = some rid := by
  simp [okEnv]

/-- `id || null` error envelopes carry exactly an error and echo a truthy
id. -/
lemma falsy_wf (rid : ReqId) (c : Int) (m : String) :
    ((errEnvFalsy rid c m).result.isSome ↔ (errEnvFalsy rid c m).error = none) ∧
    (rid.truthy = true → (errEnvFalsy rid c m).id = some rid) ∧
    ((errEnvFalsy rid c m).error = none → (errEnvFalsy rid c m).id = some rid) := by
  refine ⟨by simp [errEnvFalsy], ?_, by simp [errEnvFalsy]⟩
  intro ht
  simp [errEnvFalsy, ht]

/-- C5 counterexample: the claim's "the envelope's id always equals the id
supplied by the caller" fails — an unknown-method request with the valid
(but falsy) id `0` gets an envelope whose id is `null`, because the error
path computes `id: request.id || null`. -/
theorem c5_envelope_counterexample :
    (handleRequest
      { genResult := Except.ok "", gwtResult := Except.ok {},
        contResult := Except.ok { response := "" } }
      (fun _ => none) (fun _ => none) 1
      { method := "nosuch", id := ReqId.num 0 }).id = none :=
  rfl

/-- C5 (amended): every envelope contains exactly one of `result`/`error`;
the id equals the caller's id whenever the caller's id is truthy, on every
`generate_with_tools` route, and on every success envelope — error
envelopes of the other routes replace a falsy id with `null`. -/
theorem c5_envelope_amended (oracle : ProviderOracle) (handlers : ToolHandlers)
    (fs : String → Option String) (fuel : Nat) (req : RpcRequest) :
    ((handleRequest oracle handlers fs fuel req).result.isSome ↔
      (handleRequest oracle handlers fs fuel req).error = none) ∧
    (req.id.truthy = true → (handleRequest oracle handlers fs fuel req).id = some req.id) ∧
    (req.method = "generate_with_tools" →
      (handleRequest oracle handlers fs fuel req).id = some req.id) ∧
    ((handleRequest oracle handlers fs fuel req).error = none →
      (handleRequest oracle handlers fs fuel req).id = some req.id) := by
  unfold handleRequest
  split_ifs with h1 h2 h3 h4 h5
  · rcases processGWT_envelope_shape handlers oracle.gwtResult oracle.contResult req.id fuel
      with ⟨r, hr⟩ | ⟨m, hm⟩
    · rw [hr]
      exact ⟨(ok_wf _ _).1, fun _ => (ok_wf _ _).2, fun _ => (ok_wf _ _).2,
             fun _ => (ok_wf _ _).2⟩
    · rw [hm]
      refine ⟨by simp [errEnvExact], fun _ => by simp [errEnvExact],
              fun _ => by simp [errEnvExact], ?_⟩
      simp [errEnvExact]
  · cases oracle.genResult with
    | ok c =>
      exact ⟨(ok_wf _ _).1, fun _ => (ok_wf _ _).2, fun hm => absurd hm h1,
             fun _ => (ok_wf _ _).2⟩
    | error e =>
      exact ⟨(falsy_wf _ _ _).1, (falsy_wf _ _ _).2.1, fun hm => absurd hm h1,
             (falsy_wf _ _ _).2.2⟩
  · cases oracle.contResult with
    | ok cr =>
      exact ⟨(ok_wf _ _).1, fun _ => (ok_wf _ _).2, fun hm => absurd hm h1,
             fun _ => (ok_wf _ _).2⟩
    | error e =>
      exact ⟨(falsy_wf _ _ _).1, (falsy_wf _ _ _).2.1, fun hm => absurd hm h1,
             (falsy_wf _ _ _).2.2⟩
  · cases readResource fs (req.uri.getD "undefined") with
    | ok c =>
      exact ⟨(ok_wf _ _).1, fun _ => (ok_wf _ _).2, fun hm => absurd hm h1,
             fun _ => (ok_wf _ _).2⟩
    | error e =>
      exact ⟨(falsy_wf _ _ _).1, (falsy_wf _ _ _).2.1, fun hm => absurd hm h1,
             (falsy_wf _ _ _).2.2⟩
  · cases hh : handlers (req.toolName.getD "undefined") with
    | none =>
      simp only [hh]
      exact ⟨(falsy_wf _ _ _).1, (falsy_wf _ _ _).2.1, fun hm => absurd hm h1,
             (falsy_wf _ _ _).2.2⟩
    | some h =>
      cases ha : h (req.toolArgs.getD Json.null) with
      | ok r =>
        simp only [hh, ha]
        exact ⟨(ok_wf _ _).1, fun _ => (ok_wf _ _).2, fun hm => absurd hm h1,
               fun _ => (ok_wf _ _).2⟩
      | error e =>
        simp only [hh, ha]
        exact ⟨(falsy_wf _ _ _).1, (falsy_wf _ _ _).2.1, fun hm => absurd hm h1,
               (falsy_wf _ _ _).2.2⟩
  · exact ⟨(falsy_wf _ _ _).1, (falsy_wf _ _ _).2.1, fun hm => absurd hm h1,
           (falsy_wf _ _ _).2.2⟩

/-- Witness for `c5_envelope_amended`: a `generate` request with the truthy
id `7` gets that id echoed. -/
theorem c5_envelope_amended_witness :
    (handleRequest
      { genResult := Except.ok "hi", gwtResult := Except.ok {},
        contResult := Except.ok { response := "" } }
      (fun _ => none) (fun _ => none) 1
      { method := "generate", id := ReqId.num 7 }).id = some (ReqId.num 7) :=
  (c5_envelope_amended
    { genResult := Except.ok "hi", gwtResult := Except.ok {},
      contResult := Except.ok { response := "" } }
    (fun _ => none) (fun _ => none) 1
    { method := "generate", id := ReqId.num 7 }).2.1 (by decide)

/-- The error object of an `id || null` envelope carries the code it was
built with. -/
lemma falsy_code (rid : ReqId) (c : Int) (m : String) (err : RpcError)
    (h : (errEnvFalsy rid c m).error = some err) : err.code = c := by
  simp [errEnvFalsy] at h
  simp [← h]

/-- The error object of a verbatim-id envelope carries the code it was
built with. -/
lemma exact_code (rid : ReqId) (c : Int) (m : String) (err : RpcError)
    (h : (errEnvExact rid c m).error = some err) : err.code = c := by
  simp [errEnvExact] at h
  simp [← h]

/-- A success envelope has no error object. -/
lemma ok_no_err (rid : ReqId) (r : RpcResult) (err : RpcError)
    (h : (okEnv rid r).error = some err) : False := by
  simp [okEnv] at h

/-- C6: an error envelope carries code `-32601` exactly when the request's
method is outside the method table; a failure of a known method other than
`generate_with_tools` carries `-32000`; a failure during full server-side
tool resolution of `generate_with_tools` carries `-32603`. -/
theorem c6_error_codes (oracle : ProviderOracle) (handlers : ToolHandlers)
    (fs : String → Option String) (fuel : Nat) (req : RpcRequest) :
    (∀ err, (handleRequest oracle handlers fs fuel req).error = some err →
      (err.code = -32601 ↔ req.method ∉ methodTable)) ∧
    (req.method = "generate_with_tools" →
      ∀ err, (handleRequest oracle handlers fs fuel req).error = some err →
        err.code = -32603) ∧
    (req.method ∈ methodTable → req.method ≠ "generate_with_tools" →
      ∀ err, (handleRequest oracle handlers fs fuel req).error = some err →
        err.code = -32000) := by
  unfold handleRequest
  split_ifs with h1 h2 h3 h4 h5
  · rcases processGWT_envelope_shape handlers oracle.gwtResult oracle.contResult req.id fuel
      with ⟨r, hr⟩ | ⟨m, hm⟩
    · rw [hr]
      exact ⟨fun err herr => absurd (ok_no_err _ _ _ herr) (by simp),
             fun _ err herr => absurd (ok_no_err _ _ _ herr) (by simp),
             fun _ hne _ => absurd h1 hne⟩
    · rw [hm]
      refine ⟨?_, fun _ err herr => exact_code _ _ _ _ herr, fun _ hne _ => absurd h1 hne⟩
      intro err herr
      have := exact_code _ _ _ _ herr
      constructor
      · intro hc; rw [this] at hc; exact absurd hc (by decide)
      · intro hmem; exact absurd (by simp [h1, methodTable]) hmem
  · cases oracle.genResult with
    | ok c =>
      exact ⟨fun err herr => absurd (ok_no_err _ _ _ herr) (by simp),
             fun hm _ _ => absurd hm h1,
             fun _ _ err herr => absurd (ok_no_err _ _ _ herr) (by simp)⟩
    | error e =>
      refine ⟨?_, fun hm _ _ => absurd hm h1, fun _ _ err herr => falsy_code _ _ _ _ herr⟩
      intro err herr
      have := falsy_code _ _ _ _ herr
      constructor
      · intro hc; rw [this] at hc; exact absurd hc (by decide)
      · intro hmem; exact absurd (by simp [h2, methodTable]) hmem
  · cases oracle.contResult with
    | ok cr =>
      exact ⟨fun err herr => absurd (ok_no_err _ _ _ herr) (by simp),
             fun hm _ _ => absurd hm h1,
             fun _ _ err herr => absurd (ok_no_err _ _ _ herr) (by simp)⟩
    | error e =>
      refine ⟨?_, fun hm _ _ => absurd hm h1, fun _ _ err herr => falsy_code _ _ _ _ herr⟩
      intro err herr
      have := falsy_code _ _ _ _ herr
      constructor
      · intro hc; rw [this] at hc; exact absurd hc (by decide)
      · intro hmem; exact absurd (by simp [h3, methodTable]) hmem
  · cases readResource fs (req.uri.getD "undefined") with
    | ok c =>
      exact ⟨fun err herr => absurd (ok_no_err _ _ _ herr) (by simp),
             fun hm _ _ => absurd hm h1,
             fun _ _ err herr => absurd (ok_no_err _ _ _ herr) (by simp)⟩
    | error e =>
      refine ⟨?_, fun hm _ _ => absurd hm h1, fun _ _ err herr => falsy_code _ _ _ _ herr⟩
      intro err herr
      have := falsy_code _ _ _ _ herr
      constructor
      · intro hc; rw [this] at hc; exact absurd hc (by decide)
      · intro hmem; exact absurd (by simp [h4, methodTable]) hmem
  · cases hh : handlers (req.toolName.getD "undefined") with
    | none =>
      simp only [hh]
      refine ⟨?_, fun hm _ _ => absurd hm h1, fun _ _ err herr => falsy_code _ _ _ _ herr⟩
      intro err herr
      have := falsy_code _ _ _ _ herr
      constructor
      · intro hc; rw [this] at hc; exact absurd hc (by decide)
      · intro hmem; exact absurd (by simp [h5, methodTable]) hmem
    | some h =>
      cases ha : h (req.toolArgs.getD Json.null) with
      | ok r =>
        simp only [hh, ha]
        exact ⟨fun err herr => absurd (ok_no_err _ _ _ herr) (by simp),
               fun hm _ _ => absurd hm h1,
               fun _ _ err herr => absurd (ok_no_err _ _ _ herr) (by simp)⟩
      | error e =>
        simp only [hh, ha]
        refine ⟨?_, fun hm _ _ => absurd hm h1, fun _ _ err herr => falsy_code _ _ _ _ herr⟩
        intro err herr
        have := falsy_code _ _ _ _ herr
        constructor
        · intro hc; rw [this] at hc; exact absurd hc (by decide)
        · intro hmem; exact absurd (by simp [h5, methodTable]) hmem
  · refine ⟨?_, fun hm _ _ => absurd hm h1, ?_⟩
    · intro err herr
      have := falsy_code _ _ _ _ herr
      simp only [this]
      constructor
      · intro _
        simp [methodTable, h1, h2, h3, h4, h5]
      · intro _; trivial
    · intro hmem _ err herr
      exact absurd hmem (by simp [methodTable, h1, h2, h3, h4, h5])

/-- Witness for `c6_error_codes`: the unknown method `nosuch` gets the
`-32601` code, which by the theorem places it outside the method table. -/
theorem c6_error_codes_witness : ("nosuch" : String) ∉ methodTable :=
  ((c6_error_codes
    { genResult := Except.ok "", gwtResult := Except.ok {},
      contResult := Except.ok { response := "" } }
    (fun _ => none) (fun _ => none) 1
    { method := "nosuch", id := ReqId.num 1 }).1
    { code := -32601, message := "Method nosuch not found" } rfl).mp rfl

/-- C8: translating a valid tool descriptor (schema type `object`) to
either backend-native shape preserves `name`, `description` and the
essential schema fields `type`, `properties` and `required` — the OpenAI
shape passes the whole schema through, and the Anthropic shape of the
second Claude version rebuilds it, replacing only an absent `required`
with the empty list. -/
theorem c8_translation_preserves (t : ToolFunction)
    (hvalid : t.input_schema.type = "object") :
    toOpenAIFunction t =
      { name := t.name, description := t.description, parameters := t.input_schema } ∧
    convertToAnthropicTools [t] =
      [{ name := t.name, description := t.description,
         input_schema :=
           { type := t.input_schema.type,
             properties := t.input_schema.properties,
             required := some (t.input_schema.required.getD []),
             additionalProperties := none } }] := by
  refine ⟨rfl, ?_⟩
  simp [convertToAnthropicTools, hvalid]

/-- Witness for `c8_translation_preserves`: a descriptor that omits
`required` is translated with `required = []`. -/
theorem c8_translation_preserves_witness :
    convertToAnthropicTools
      [{ name := "get_weather", description := "d",
         input_schema := { type := "object",
                           properties := [("location", Json.obj [])],
                           required := none } }] =
      [{ name := "get_weather", description := "d",
         input_schema := { type := "object",
                           properties := [("location", Json.obj [])],
                           required := some [],
                           additionalProperties := none } }] :=
  (c8_translation_preserves
    { name := "get_weather", description := "d",
      input_schema := { type := "object",
                        properties := [("location", Json.obj [])],
                        required := none } } rfl).2

/-- C9: the provider factory returns the OpenAI adapter for `openai`, the
Claude adapter for `anthropic`, and for any other name throws the
unsupported-provider error naming the supported providers; it does nothing
beyond constructing the adapter from the supplied credential. -/
theorem c9_provider_factory (providerName apiKey : String) :
    (providerName = "openai" →
      getProvider providerName apiKey =
        Except.ok (ProviderInstance.openaiProvider apiKey)) ∧
    (providerName = "anthropic" →
      getProvider providerName apiKey =
        Except.ok (ProviderInstance.claudeProvider apiKey)) ∧
    (providerName ≠ "openai" → providerName ≠ "anthropic" →
      getProvider providerName apiKey =
        Except.error ("Unsupported provider: \"" ++ providerName ++
          "\". Supported providers are: \x27openai\x27 or \x27anthropic\x27.")) := by
  refine ⟨?_, ?_, ?_⟩
  · intro h; subst h; rfl
  · intro h; subst h; rfl
  · intro h1 h2
    unfold getProvider
    split
    · simp_all
    · simp_all
    · rfl

/-- Witness for `c9_provider_factory` at the unsupported name `gemini`. -/
theorem c9_provider_factory_witness :
    getProvider "gemini" "k" =
      Except.error ("Unsupported provider: \"gemini\". " ++
        "Supported providers are: \x27openai\x27 or \x27anthropic\x27.") :=
  (c9_provider_factory "gemini" "k").2.2 (by decide) (by decide)

/-- C10: a `resources/read` request with a `file://` URI of a readable file
returns a result whose `contents` is the one-element list carrying that
uri, the file's text and mimeType `text/plain`; with a URI of any other
scheme it returns a `-32000` error envelope (no exception crosses the
method-table boundary). -/
theorem c10_resources_read (oracle : ProviderOracle) (handlers : ToolHandlers)
    (fs : String → Option String) (fuel : Nat) (rid : ReqId) :
    (∀ uri txt, uriScheme uri = some "file" → fs (filePathname uri) = some txt →
      handleRequest oracle handlers fs fuel
        { method := "resources/read", id := rid, uri := some uri } =
        okEnv rid (RpcResult.contents
          [{ uri := uri, text := txt, mimeType := "text/plain" }])) ∧
    (∀ uri s, uriScheme uri = some s → s ≠ "file" →
      (handleRequest oracle handlers fs fuel
        { method := "resources/read", id := rid, uri := some uri }).error =
        some { code := -32000,
               message := "Failed to read resource: Unsupported URI protocol. Only file:// is supported." } ∧
      (handleRequest oracle handlers fs fuel
        { method := "resources/read", id := rid, uri := some uri }).result = none) := by
  constructor
  · intro uri txt hs hf
    have hrr : readResource fs uri =
        Except.ok { uri := uri, text := txt, mimeType := "text/plain" } := by
      unfold readResource
      rw [hs]
      simp [hf]
    unfold handleRequest
    simp [hrr]
  · intro uri s hs hne
    have hrr : readResource fs uri = Except.error
        "Failed to read resource: Unsupported URI protocol. Only file:// is supported." := by
      unfold readResource
      rw [hs]
      simp [hne]
    unfold handleRequest
    simp [hrr, errEnvFalsy]

/-- Witness for `c10_resources_read`: reading `file:///tmp/x.txt` holding
`hello` from a concrete filesystem, and a `http://h` request. -/
theorem c10_resources_read_witness :
    handleRequest
      { genResult := Except.ok "", gwtResult := Except.ok {},
        contResult := Except.ok { response := "" } }
      (fun _ => none) (fun p => if p = "/tmp/x.txt" then some "hello" else none) 1
      { method := "resources/read", id := ReqId.num 1, uri := some "file:///tmp/x.txt" } =
      okEnv (ReqId.num 1) (RpcResult.contents
        [{ uri := "file:///tmp/x.txt", text := "hello", mimeType := "text/plain" }]) ∧
    (handleRequest
      { genResult := Except.ok "", gwtResult := Except.ok {},
        contResult := Except.ok { response := "" } }
      (fun _ => none) (fun p => if p = "/tmp/x.txt" then some "hello" else none) 1
      { method := "resources/read", id := ReqId.num 1, uri := some "http://h" }).error =
      some { code := -32000,
             message := "Failed to read resource: Unsupported URI protocol. Only file:// is supported." } :=
  ⟨(c10_resources_read
      { genResult := Except.ok "", gwtResult := Except.ok {},
        contResult := Except.ok { response := "" } }
      (fun _ => none) (fun p => if p = "/tmp/x.txt" then some "hello" else none) 1
      (ReqId.num 1)).1 "file:///tmp/x.txt" "hello" (by decide) (by decide),
   ((c10_resources_read
      { genResult := Except.ok "", gwtResult := Except.ok {},
        contResult := Except.ok { response := "" } }
      (fun _ => none) (fun p => if p = "/tmp/x.txt" then some "hello" else none) 1
      (ReqId.num 1)).2 "http://h" "http" (by decide) (by decide)).1⟩
